import Mathlib

/-!
Verification of the crawler repository's extraction and crawl-state pipeline.

The definitions below are shallow embeddings of the Python functions in
src/crawlers/ebay_store_scraper.py and src/crawlers/scraper.py (and of the
JavaScript extraction snippets embedded as string constants in the former).
Strings are modelled as Lean `String`s over their `List Char` data; Python
regular expressions that occur in the source are literal enough to be
translated into direct character-level parsers; the ASCII fragments of the
Python and JavaScript whitespace/digit character classes are modelled
explicitly.  Browser and file I/O are modelled as explicit inputs: a fetched
page is a value describing what the browser calls would have returned, and
the progress file is a value threaded through the run loop.
-/

/-! ## Character classes used by the source's regular expressions -/

/-- The whitespace class of Python's regex shorthand and of str.strip,
restricted to ASCII: space, tab, newline, carriage return, vertical tab,
form feed. -/
def isSpaceRe (c : Char) : Bool :=
  c = ' ' || c = '\t' || c = '\n' || c = '\r' || c = '\x0b' || c = '\x0c'

/-- Python str.strip(): remove leading and trailing whitespace. -/
def pyStrip (cs : List Char) : List Char :=
  ((cs.dropWhile isSpaceRe).reverse.dropWhile isSpaceRe).reverse

/-- Numeric value of a decimal digit character. -/
def digitVal (c : Char) : Nat := c.toNat - 48

/-! ## Year expansion (ebay_store_scraper.py, `_expand_year`) -/

/-- One unit of the source regexes: consume exactly four decimal digits
from the front of the character list, returning their value and the rest.
Models a `\d{4}` group under Python's `re.match` (anchored prefix match). -/
def take4Digits : List Char → Option (Nat × List Char)
  | a :: b :: c :: d :: rest =>
    if a.isDigit && b.isDigit && c.isDigit && d.isDigit then
      some (digitVal a * 1000 + digitVal b * 100 + digitVal c * 10 + digitVal d, rest)
    else none
  | _ => none

/-- Prefix match of the source's year-range regex
(four digits, optional whitespace, a hyphen or en-dash, optional
whitespace, four digits), returning the two captured values. -/
def matchRange (cs : List Char) : Option (Nat × Nat) :=
  match take4Digits cs with
  | none => none
  | some (y1, r1) =>
    match r1.dropWhile isSpaceRe with
    | [] => none
    | c :: r3 =>
      if c = '-' || c = '–' then
        match take4Digits (r3.dropWhile isSpaceRe) with
        | none => none
        | some (y2, _) => some (y1, y2)
      else none

/-- Prefix match of the source's bare `\d{4}` fallback regex. -/
def startsWith4Digits (cs : List Char) : Bool :=
  (take4Digits cs).isSome

/-- Shallow embedding of `_expand_year` (ebay_store_scraper.py lines
201-209): strip the cell, expand a detected range `Y1-Y2` into the years of
`range(Y1, Y2 + 1)` rendered in decimal, else take the first four digits
when present, else pass the stripped cell through when non-empty. -/
def _expand_year (year_text : String) : List String :=
  let s := pyStrip year_text.data
  match matchRange s with
  | some (y1, y2) => (List.range' y1 (y2 + 1 - y1)).map Nat.repr
  | none =>
    if startsWith4Digits s then [(s.take 4).asString]
    else if s.isEmpty then [] else [s.asString]

/-! ## Listing pagination (ebay_store_scraper.py, `collect_product_urls`) -/

/-- Union of the identifier sets yielded by a list of pages. -/
def unionOf (pages : List (List String)) : Finset String :=
  pages.foldr (fun p acc => p.toFinset ∪ acc) ∅

/-- The source loop's two termination conditions, evaluated against the
running union of identifiers seen before the page: the page yields no
identifiers, or every identifier it yields was already seen. -/
def stopPage (p : List String) (u : Finset String) : Prop :=
  p = [] ∨ p.toFinset ⊆ u

/-- Core of `collect_product_urls` (ebay_store_scraper.py lines 158-193):
walk the successive listing pages, accumulating the set of item ids, until
a page yields no ids or yields no new ids.  The input list models the ids
each successive page fetch would yield; `none` means the walk would fetch
past the modelled pages.  Returns the accumulated set and the number of
pages fetched. -/
def collectWalk : List (List String) → Finset String → Option (Finset String × Nat)
  | [], _ => none
  | ids :: rest, acc =>
    if ids = [] then some (acc, 1)
    else
      let acc2 := acc ∪ ids.toFinset
      if ids.toFinset \ acc = ∅ then some (acc2, 1)
      else
        match collectWalk rest acc2 with
        | some (s, n) => some (s, n + 1)
        | none => none

/-- Shallow embedding of `collect_product_urls`: the walk's final set,
sorted, plus the number of pages fetched. -/
def collect_product_urls (pages : List (List String)) : Option (List String × Nat) :=
  match collectWalk pages ∅ with
  | some (s, n) => some (Finset.sort (· ≤ ·) s, n)
  | none => none

/-! ## Page classification (scraper.py, `classify_page`) -/

/-- Substring test on character lists: does the second list contain the
first as a contiguous run?  Models `pattern.search` for the source's
classification patterns, which are all literal strings. -/
def containsSub (needle : List Char) : List Char → Bool
  | [] => needle.isEmpty
  | c :: rest => needle.isPrefixOf (c :: rest) || containsSub needle rest

/-- ASCII lowercasing of a string, modelling `str.lower` and the
`re.IGNORECASE` flag on the all-lowercase literal patterns. -/
def lowerStr (s : String) : String :=
  (s.data.map Char.toLower).asString

/-- Product URL-path patterns (scraper.py lines 60-71), compiled by the
source with `re.IGNORECASE` into `PRODUCT_PATTERNS`. -/
def PRODUCT_PATTERNS : List String :=
  ["/product/", "/products/", "/p/", "/item/", "/items/", "/dp/", "/pd/"]

/-- Category URL-path patterns (scraper.py lines 48-59), compiled into
`CATEGORY_PATTERNS`. -/
def CATEGORY_PATTERNS : List String :=
  ["/category/", "/categories/", "/cat/", "/c/", "/collections/", "/shop/", "/browse/"]

/-- `pattern.search(path)` for one literal pattern under `re.IGNORECASE`. -/
def patternSearch (pat : String) (path : String) : Bool :=
  containsSub pat.data (lowerStr path).data

/-- Shallow embedding of `classify_page` (scraper.py lines 148-169).  The
`path` argument models `urlparse(url).path`, whose computation from the
URL is external to the classified logic.  The known-URL sets are modelled
as lists; the source's `if known_product_urls and url in known_product_urls`
guard is equivalent to plain membership, since nothing is a member of an
empty set. -/
def classify_page (url : String) (path : String)
    (known_product_urls known_category_urls : List String) : String :=
  if known_product_urls.contains url then "product"
  else if known_category_urls.contains url then "category"
  else if PRODUCT_PATTERNS.any (fun p => patternSearch p path) then "product"
  else if CATEGORY_PATTERNS.any (fun p => patternSearch p path) then "category"
  else "other"

/-! ## Detail extraction (ebay_store_scraper.py, `JS_EXTRACT_PRODUCT`) -/

/-- Lookup in a string-keyed dictionary modelled as an association list,
with the empty string for a missing key.  Models both Python
`dict.get(k, "")` and the JavaScript `obj[k] || ""` accesses of the
source. -/
def dictGet (m : List (String × String)) (k : String) : String :=
  match m.find? (fun p => p.1 == k) with
  | some p => p.2
  | none => ""

/-- Keyed assignment `obj[k] = v` on a dictionary modelled as an
association list: replace the value when the key is present, append
otherwise. -/
def dictSet (m : List (String × String)) (k v : String) : List (String × String) :=
  if m.any (fun p => p.1 == k) then
    m.map (fun p => if p.1 == k then (k, v) else p)
  else m ++ [(k, v)]

/-- The trimming performed by JavaScript `textContent.trim()` on the
extracted texts, over the modelled ASCII whitespace class. -/
def jsTrim (s : String) : String :=
  (pyStrip s.data).asString

/-- The JavaScript `key.replace(/:$/, '')`: drop one trailing colon. -/
def stripTrailingColon (s : String) : String :=
  match s.data.reverse with
  | ':' :: rest => rest.reverse.asString
  | _ => s

/-- The item-specifics loop of `JS_EXTRACT_PRODUCT` (lines 95-104): each
labeled row contributes `specifics[key] = val` for the trimmed label
(minus a trailing colon) and trimmed value, provided key and value are
non-empty and the key is shorter than 80 characters. -/
def buildSpecs (rows : List (String × String)) : List (String × String) :=
  rows.foldl
    (fun m lv =>
      let key := stripTrailingColon (jsTrim lv.1)
      let val := jsTrim lv.2
      if key ≠ "" && val ≠ "" && key.length < 80 then dictSet m key val else m)
    []

/-- The state of the `JS_EXTRACT_PRODUCT` result object after its JSON-LD
loop (lines 52-89): the scalar fields and images as filled from structured
embedded product data, with the object's initial values (empty strings,
currency `"GBP"`, no images) when the page has no usable JSON-LD. -/
structure StructuredData where
  title : String := ""
  price : String := ""
  currency : String := "GBP"
  images : List String := []
  condition : String := ""
  brand : String := ""
deriving DecidableEq

/-- The full result object returned by `JS_EXTRACT_PRODUCT`. -/
structure ExtractResult where
  title : String
  price : String
  currency : String
  images : List String
  condition : String
  brand : String
  item_specifics : List (String × String)
  description_html : String
deriving DecidableEq

/-- Shallow embedding of the fallback phase of `JS_EXTRACT_PRODUCT`
(lines 91-107): given the JSON-LD result state, the text of the page's
primary `h1` heading when present, and the labeled specification rows,
fill the title from the heading only when structured data produced none,
build the item specifics, and fill the brand from the `Brand` row only
when structured data produced none.  The `description_html` field is
never assigned by the script and stays empty. -/
def jsExtractProduct (sd : StructuredData) (h1 : Option String)
    (specRows : List (String × String)) : ExtractResult :=
  let title :=
    if sd.title = "" then
      match h1 with
      | some t => jsTrim t
      | none => sd.title
    else sd.title
  let specifics := buildSpecs specRows
  let brand := if sd.brand = "" then dictGet specifics "Brand" else sd.brand
  { title := title, price := sd.price, currency := sd.currency,
    images := sd.images, condition := sd.condition, brand := brand,
    item_specifics := specifics, description_html := "" }

/-! ## Product records and the scrape of one item
(ebay_store_scraper.py, `scrape_product`) -/

/-- A product record as built by `scrape_product` (lines 231-246) and
consumed by `generate_shopify_csv`: the dictionary's scalar fields, image
list, item specifics and compatibility lists.  The `error` field models
the optional `"error"` key of the Python dictionaries, with the empty
string standing for an absent key. -/
structure Product where
  error : String := ""
  item_id : String := ""
  url : String := ""
  title : String := ""
  price : String := ""
  currency : String := "GBP"
  images : List String := []
  condition : String := ""
  brand : String := ""
  item_specifics : List (String × String) := []
  description_html : String := ""
  mpn : String := ""
  compatibility_makes : List String := []
  compatibility_years : List String := []
deriving DecidableEq

/-- An error record as returned by `scrape_product` on failure:
`{"error": msg, "item_id": id, "url": url}`. -/
structure ErrorRec where
  error : String
  item_id : String
  url : String
deriving DecidableEq

/-- The outcome of scraping one item: a detail record or an error
record. -/
inductive ScrapeResult where
  | ok (p : Product)
  | err (e : ErrorRec)
deriving DecidableEq

/-- What the browser would deliver for one product page, modelling the
external calls made by `scrape_product` and the extraction helpers:
whether `page.goto`/`wait` raises (and with what message), the page title
as read at the first and at the second (post-wait) security check, the
JSON-LD derived state and heading and specification rows consumed by
`JS_EXTRACT_PRODUCT`, and the make and raw year cells of the traversed
compatibility sub-pages. -/
structure PageEnv where
  fetch : Option String := none
  title1 : String := ""
  title2 : String := ""
  structured : StructuredData := {}
  h1 : Option String := none
  specRows : List (String × String) := []
  compatMakes : List String := []
  compatYearCells : List String := []

/-- Python `sorted(set(l))` on strings. -/
def sortedDedup (l : List String) : List String :=
  Finset.sort (· ≤ ·) l.toFinset

/-- The store's base URL (ebay_store_scraper.py line 45). -/
def EBAY_BASE : String := "https://www.ebay.co.uk"

/-- Shallow embedding of `extract_compatibility` (lines 249-299) at the
level of the observed rows: the make cells pass through, every year cell
is expanded through `_expand_year` and the results concatenated, exactly
as the per-page loops do. -/
def extract_compatibility (env : PageEnv) : List String × List String :=
  (env.compatMakes, (env.compatYearCells.map _expand_year).flatten)

/-- The successful branch of `scrape_product` (lines 228-246): run the
extraction script, add the item id and URL, read the MPN from the item
specifics, and attach the deduplicated, sorted compatibility data unless
compatibility extraction is disabled. -/
def buildProduct (env : PageEnv) (item_id url : String) (skip_compat : Bool) : Product :=
  let pd := jsExtractProduct env.structured env.h1 env.specRows
  let compat := extract_compatibility env
  { error := "", item_id := item_id, url := url,
    title := pd.title, price := pd.price, currency := pd.currency,
    images := pd.images, condition := pd.condition, brand := pd.brand,
    item_specifics := pd.item_specifics, description_html := pd.description_html,
    mpn := dictGet pd.item_specifics "Manufacturer Part Number",
    compatibility_makes := if skip_compat then [] else sortedDedup compat.1,
    compatibility_years := if skip_compat then [] else sortedDedup compat.2 }

/-- Shallow embedding of `scrape_product` (lines 212-246).  A fetch
exception is caught and returned as an error record; a page whose title
contains the blocking marker `"security"` (case-insensitively) is
re-checked once after a wait, the second title deciding between an error
record and normal extraction.  The `full_compat` flag only changes which
compatibility sub-pages the browser traverses, which the environment
already reflects in its observed cells. -/
def scrape_product (env : PageEnv) (item_id : String)
    (skip_compat full_compat : Bool) : ScrapeResult :=
  let url := EBAY_BASE ++ "/itm/" ++ item_id
  match env.fetch with
  | some msg => .err ⟨msg, item_id, url⟩
  | none =>
    if containsSub "security".data (lowerStr env.title1).data then
      if containsSub "security".data (lowerStr env.title2).data then
        .err ⟨"Security/CAPTCHA page", item_id, url⟩
      else .ok (buildProduct env item_id url skip_compat)
    else .ok (buildProduct env item_id url skip_compat)

/-! ## Shopify CSV generation (ebay_store_scraper.py, `generate_shopify_csv`) -/

/-- The fixed CSV column set (lines 317-330). -/
def FIELDNAMES : List String :=
  ["Handle", "Title", "Body (HTML)", "Vendor", "Type", "Tags", "Published",
   "Option1 Name", "Option1 Value", "Option2 Name", "Option2 Value",
   "Option3 Name", "Option3 Value",
   "Variant SKU", "Variant Grams", "Variant Inventory Tracker",
   "Variant Inventory Qty", "Variant Inventory Policy",
   "Variant Fulfillment Service", "Variant Price", "Variant Compare At Price",
   "Variant Requires Shipping", "Variant Taxable", "Variant Barcode",
   "Image Src", "Image Position", "Image Alt Text",
   "Gift Card", "SEO Title", "SEO Description",
   "Variant Image", "Variant Weight Unit", "Cost per item", "Status",
   "Metafield: custom.car_make [list.single_line_text_field]",
   "Metafield: custom.car_year [list.single_line_text_field]"]

/-- The item-specifics fields joined into the `Tags` column (lines
351-352). -/
def TAG_FIELDS : List String :=
  ["Brand", "Technology", "Lighting Technology", "Bulb Type",
   "Light Colour", "Placement on Vehicle", "Voltage"]

/-- Python's `\w` word class restricted to ASCII. -/
def isWordChar (c : Char) : Bool := c.isAlphanum || c = '_'

/-- The character class `[-\s]` of the slug-collapsing regex. -/
def isDashSpace (c : Char) : Bool := c = '-' || isSpaceRe c

/-- `re.sub(r'[-\s]+', '-', text)`: every maximal run of dashes and
whitespace becomes a single dash.  The boolean records whether the
previous character belonged to such a run. -/
def collapseDashRuns : Bool → List Char → List Char
  | _, [] => []
  | inRun, c :: rest =>
    if isDashSpace c then
      if inRun then collapseDashRuns true rest
      else '-' :: collapseDashRuns true rest
    else c :: collapseDashRuns false rest

/-- Python `str.strip('-')`: remove leading and trailing dashes. -/
def stripDashes (cs : List Char) : List Char :=
  ((cs.dropWhile (fun c => c = '-')).reverse.dropWhile (fun c => c = '-')).reverse

/-- Shallow embedding of `slugify` (lines 307-312): lowercase and strip,
remove everything outside `[\w\s-]`, collapse dash and whitespace runs to
single dashes, strip dashes, cap at 200 characters. -/
def slugify (text : String) : String :=
  let cs := pyStrip (text.data.map Char.toLower)
  let cs := cs.filter (fun c => isWordChar c || isSpaceRe c || c = '-')
  let cs := collapseDashRuns false cs
  ((stripDashes cs).take 200).asString

/-- The handle derivation of `generate_shopify_csv` (lines 346-347): slug
of the title (or `item-<id>` when the title is empty), with the last four
characters of the item id appended when the id is non-empty. -/
def handleOf (p : Product) : String :=
  let handle := if p.title ≠ "" then slugify p.title else "item-" ++ p.item_id
  if p.item_id ≠ "" then
    handle ++ "-" ++ ((p.item_id.data.reverse.take 4).reverse).asString
  else handle

/-- The dictionary written for the first row of a record's row group
(lines 359-383), keyed exactly as the source writes it; every column
absent from the dictionary renders as the empty string. -/
def firstRowDict (p : Product) : List (String × String) :=
  let specs := p.item_specifics
  let product_type :=
    if dictGet specs "Type" ≠ "" then dictGet specs "Type" else dictGet specs "Bulb Type"
  let tags := (TAG_FIELDS.filter (fun f => dictGet specs f ≠ "")).map (fun f => dictGet specs f)
  [("Handle", handleOf p),
   ("Title", p.title),
   ("Body (HTML)", p.description_html),
   ("Vendor", "Argo City Ltd"),
   ("Type", product_type),
   ("Tags", String.intercalate ", " tags),
   ("Published", "TRUE"),
   ("Option1 Name", "Title"),
   ("Option1 Value", "Default Title"),
   ("Variant SKU", p.item_id),
   ("Variant Grams", "0"),
   ("Variant Inventory Policy", "deny"),
   ("Variant Fulfillment Service", "manual"),
   ("Variant Price", p.price),
   ("Variant Requires Shipping", "TRUE"),
   ("Variant Taxable", "TRUE"),
   ("Image Src", p.images.headD ""),
   ("Image Position", if p.images.isEmpty then "" else "1"),
   ("Image Alt Text", p.title),
   ("Status", "active"),
   ("Metafield: custom.car_make [list.single_line_text_field]",
    String.intercalate ", " p.compatibility_makes),
   ("Metafield: custom.car_year [list.single_line_text_field]",
    String.intercalate ", " p.compatibility_years)]

/-- The dictionary written for one continuation row (lines 386-392): only
the handle and the image columns of slot `idx`. -/
def contRowDict (handle title : String) (idx : Nat) (img : String) : List (String × String) :=
  [("Handle", handle), ("Image Src", img),
   ("Image Position", Nat.repr idx), ("Image Alt Text", title)]

/-- The loop `for idx, img_url in enumerate(images[1:], start=2)`. -/
def contRowsFrom (handle title : String) : Nat → List String → List (List (String × String))
  | _, [] => []
  | idx, img :: rest =>
    contRowDict handle title idx img :: contRowsFrom handle title (idx + 1) rest

/-- The rows `generate_shopify_csv` emits for one product entry: none for
an entry with a non-empty error key, otherwise the full first row followed
by one continuation row per further image. -/
def productRows (p : Product) : List (List (String × String)) :=
  if p.error ≠ "" then []
  else firstRowDict p :: contRowsFrom (handleOf p) p.title 2 (p.images.drop 1)

/-- Shallow embedding of `generate_shopify_csv` (lines 315-396) as the
sequence of row dictionaries written to the CSV. -/
def generate_shopify_csv (products : List Product) : List (List (String × String)) :=
  (products.map productRows).flatten

/-! ## The scraping run loop (ebay_store_scraper.py, `main`, lines 477-523) -/

/-- The mutable state of a run: the accumulated products and errors, the
item ids actually fetched (for reasoning about what is re-fetched on
resume), and the successive snapshots written to the progress file. -/
structure RunState where
  products : List Product := []
  errors : List ErrorRec := []
  fetched : List String := []
  checkpoints : List (List Product × List ErrorRec) := []
deriving DecidableEq

/-- The empty initial run state. -/
def initState : RunState := {}

/-- One iteration of the product loop (lines 491-513) at loop index `i`
over item `id`: skip when the id is in the resumed set, otherwise fetch
and file the outcome, then write the progress snapshot when the 1-based
position is a multiple of five. -/
def stepItem (outcome : String → ScrapeResult) (scraped0 : List String)
    (st : RunState) (i : Nat) (id : String) : RunState :=
  if scraped0.contains id then st
  else
    let st1 :=
      match outcome id with
      | .ok p => { st with products := st.products ++ [p], fetched := st.fetched ++ [id] }
      | .err e => { st with errors := st.errors ++ [e], fetched := st.fetched ++ [id] }
    if (i + 1) % 5 = 0 then
      { st1 with checkpoints := st1.checkpoints ++ [(st1.products, st1.errors)] }
    else st1

/-- The loop `for i, item_id in enumerate(item_ids)` with starting index
`i`. -/
def runItems (outcome : String → ScrapeResult) (scraped0 : List String) :
    Nat → List String → RunState → RunState
  | _, [], st => st
  | i, id :: rest, st =>
    runItems outcome scraped0 (i + 1) rest (stepItem outcome scraped0 st i id)

/-- A whole run over `item_ids` starting from state `st0` with resumed id
set `scraped0`: the product loop followed by the unconditional final
progress write (lines 522-523). -/
def runLoop (outcome : String → ScrapeResult) (scraped0 : List String)
    (item_ids : List String) (st0 : RunState) : RunState :=
  let st := runItems outcome scraped0 0 item_ids st0
  { st with checkpoints := st.checkpoints ++ [(st.products, st.errors)] }

/-- The per-item outcome induced by the pages the site serves: item `id`
is scraped against its page environment. -/
def outcomeOf (envOf : String → PageEnv) (skip_compat full_compat : Bool)
    (id : String) : ScrapeResult :=
  scrape_product (envOf id) id skip_compat full_compat

/-- The resumed id set loaded from a progress file (line 488):
the item ids of the recorded products and of the recorded errors. -/
def loadScraped (products : List Product) (errors : List ErrorRec) : List String :=
  products.map (fun p => p.item_id) ++ errors.map (fun e => e.item_id)

/-- An uninterrupted run over `item_ids` from a fresh state. -/
def fullRun (outcome : String → ScrapeResult) (item_ids : List String) : RunState :=
  runLoop outcome [] item_ids initState

/-- A run stopped after the first `n` items (the source's
`--max-products n`), whose final progress write is then loaded and
resumed over the full item list (lines 483-493). -/
def resumedRun (outcome : String → ScrapeResult) (item_ids : List String)
    (n : Nat) : RunState :=
  let r1 := runLoop outcome [] (item_ids.take n) initState
  runLoop outcome (loadScraped r1.products r1.errors) item_ids
    { products := r1.products, errors := r1.errors }

/-! ## Concrete sample data used by counterexamples and witnesses -/

/-- A successfully extracted record with a title and no images. -/
def sampleNoImageProduct : Product :=
  { item_id := "1234567890123", url := "https://www.ebay.co.uk/itm/1234567890123",
    title := "Lamp", price := "9.99" }

/-- A page environment whose fetch succeeds, whose title is unremarkable,
and whose page yields a titled product with no images. -/
def sampleEnv : PageEnv :=
  { title1 := "A product page", title2 := "A product page",
    structured := { title := "Lamp", price := "9.99" } }

/-- The outcome function of a site that serves `sampleEnv` for every
item. -/
def sampleOutcome : String → ScrapeResult :=
  outcomeOf (fun _ => sampleEnv) true false

/-- A six-item listing whose fifth item is already recorded in the
progress file being resumed. -/
def sampleIds : List String := ["a", "b", "c", "d", "e", "f"]

/-- The item id recorded in a scrape outcome. -/
def resultId : ScrapeResult → String
  | .ok p => p.item_id
  | .err e => e.item_id

/-- An error record entry as it would sit in a loaded products list. -/
def sampleErrorProduct : Product :=
  { error := "Security/CAPTCHA page", item_id := "4242424242424",
    url := "https://www.ebay.co.uk/itm/4242424242424" }

/-- The detail record of an outcome, when it is one. -/
def prodOf (outcome : String → ScrapeResult) (id : String) : Option Product :=
  match outcome id with
  | .ok p => some p
  | .err _ => none

/-- The error record of an outcome, when it is one. -/
def errOf (outcome : String → ScrapeResult) (id : String) : Option ErrorRec :=
  match outcome id with
  | .ok _ => none
  | .err e => some e

/-- The number of mid-run progress writes the source loop performs over
the given items starting at loop index `i`: one for each iteration whose
item is not skipped and whose 1-based position is a multiple of five. -/
def checkpointCount (scraped0 : List String) : Nat → List String → Nat
  | _, [] => 0
  | i, id :: rest =>
    (if ¬ scraped0.contains id ∧ (i + 1) % 5 = 0 then 1 else 0) +
      checkpointCount scraped0 (i + 1) rest

/-! ## Helper lemmas -/

theorem isSpaceRe_eq_false_of_isDigit {c : Char} (h : c.isDigit = true) :
    isSpaceRe c = false := by
  simp only [isSpaceRe, Bool.or_eq_false_iff, decide_eq_false_iff_not]
  refine ⟨⟨⟨⟨⟨?_, ?_⟩, ?_⟩, ?_⟩, ?_⟩, ?_⟩ <;> rintro rfl <;> simp [Char.isDigit] at h

theorem matchRange_head (a b c d sep e f g h : Char) (t : List Char)
    (ha : a.isDigit = true) (hb : b.isDigit = true) (hc : c.isDigit = true)
    (hd : d.isDigit = true) (he : e.isDigit = true) (hf : f.isDigit = true)
    (hg : g.isDigit = true) (hh : h.isDigit = true)
    (hsep : sep = '-' ∨ sep = '–') :
    matchRange (a :: b :: c :: d :: sep :: e :: f :: g :: h :: t) =
      some (digitVal a * 1000 + digitVal b * 100 + digitVal c * 10 + digitVal d,
            digitVal e * 1000 + digitVal f * 100 + digitVal g * 10 + digitVal h) := by
  have hsep' : isSpaceRe sep = false := by
    rcases hsep with rfl | rfl <;> decide
  have hsep'' : (sep = '-' || sep = '–') = true := by
    rcases hsep with rfl | rfl <;> decide
  have he' := isSpaceRe_eq_false_of_isDigit he
  simp [matchRange, take4Digits, ha, hb, hc, hd, he, hf, hg, hh,
    List.dropWhile_cons_of_neg, hsep', he', hsep'']

theorem pyStrip_nine (a b c d sep e f g h : Char)
    (ha : isSpaceRe a = false) (hh : isSpaceRe h = false) :
    pyStrip [a, b, c, d, sep, e, f, g, h] = [a, b, c, d, sep, e, f, g, h] := by
  simp [pyStrip, List.dropWhile_cons_of_neg, ha, hh]

/-! ## Claim C1 -/

/-- C1, counterexample.  The claim states that any cell other than a range
cell or a four-digit-prefixed cell, when non-empty, passes through
unchanged as a literal token.  The cell `" "` is non-empty, is not of the
range form, and does not begin with four digits, yet `_expand_year`
returns the empty list rather than the literal `[" "]`, because the
function strips the cell before classifying it. -/
theorem expand_year_claim_counterexample :
    _expand_year " " = [] ∧ _expand_year " " ≠ [" "] ∧ " " ≠ "" :=
  ⟨by decide, by decide, by decide⟩

/-- C1, amended.  After stripping surrounding whitespace: a cell whose
prefix matches the range pattern (four digits, optional whitespace, a
hyphen or en-dash, optional whitespace, four digits) expands to the
decimal renderings of `range(Y1, Y2 + 1)` — in particular an exact
`"Y1-Y2"` cell of two four-digit numbers does; a cell beginning with four
digits but without such a range prefix yields exactly its first four
digits; any other cell that strips to a non-empty string passes through in
stripped form; a cell that strips to nothing (empty or whitespace-only)
yields the empty list.  The claim's four examples hold as stated. -/
theorem expand_year_amended_spec :
    (∀ cs : String, ∀ y1 y2 : Nat,
      matchRange (pyStrip cs.data) = some (y1, y2) →
      _expand_year cs = (List.range' y1 (y2 + 1 - y1)).map Nat.repr)
    ∧ (∀ a b c d sep e f g h : Char,
      a.isDigit = true → b.isDigit = true → c.isDigit = true → d.isDigit = true →
      e.isDigit = true → f.isDigit = true → g.isDigit = true → h.isDigit = true →
      (sep = '-' ∨ sep = '–') →
      _expand_year (String.mk [a, b, c, d, sep, e, f, g, h]) =
        (List.range'
          (digitVal a * 1000 + digitVal b * 100 + digitVal c * 10 + digitVal d)
          ((digitVal e * 1000 + digitVal f * 100 + digitVal g * 10 + digitVal h) + 1 -
            (digitVal a * 1000 + digitVal b * 100 + digitVal c * 10 + digitVal d))).map
          Nat.repr)
    ∧ (∀ cs : String, matchRange (pyStrip cs.data) = none →
      startsWith4Digits (pyStrip cs.data) = true →
      _expand_year cs = [((pyStrip cs.data).take 4).asString])
    ∧ (∀ cs : String, matchRange (pyStrip cs.data) = none →
      startsWith4Digits (pyStrip cs.data) = false →
      pyStrip cs.data ≠ [] →
      _expand_year cs = [(pyStrip cs.data).asString])
    ∧ (∀ cs : String, pyStrip cs.data = [] → _expand_year cs = [])
    ∧ _expand_year "2009-2015" = ["2009", "2010", "2011", "2012", "2013", "2014", "2015"]
    ∧ _expand_year "2015–2016" = ["2015", "2016"]
    ∧ _expand_year "2012 Model" = ["2012"]
    ∧ _expand_year "" = [] := by
  refine ⟨?_, ?_, ?_, ?_, ?_, by decide, by decide, by decide, by decide⟩
  · intro cs y1 y2 hm
    simp [_expand_year, hm]
  · intro a b c d sep e f g h ha hb hc hd he hf hg hh hsep
    have hstrip := pyStrip_nine a b c d sep e f g h
      (isSpaceRe_eq_false_of_isDigit ha) (isSpaceRe_eq_false_of_isDigit hh)
    have hm := matchRange_head a b c d sep e f g h [] ha hb hc hd he hf hg hh hsep
    simp only [_expand_year, hstrip, hm]
  · intro cs h1 h2
    simp [_expand_year, h1, h2]
  · intro cs h1 h2 h3
    simp [_expand_year, h1, h2, h3]
  · intro cs h
    simp [_expand_year, h, matchRange, take4Digits, startsWith4Digits]

/-- C1, witness: the amended range clause applied to the concrete cell
`"1999-2001"`. -/
theorem expand_year_amended_spec_witness :
    _expand_year (String.mk ['1', '9', '9', '9', '-', '2', '0', '0', '1']) =
      ["1999", "2000", "2001"] := by
  have h := expand_year_amended_spec.2.1 '1' '9' '9' '9' '-' '2' '0' '0' '1'
    (by decide) (by decide) (by decide) (by decide) (by decide) (by decide)
    (by decide) (by decide) (Or.inl rfl)
  exact h.trans (by decide)

/-! ## Claim C9 -/

/-- C9: a year cell whose (stripped) prefix matches the range form with
`Y1 > Y2` yields the empty list — Python's `range(Y1, Y2 + 1)` is then
empty, so the reversed range is silently dropped rather than passed
through or reported. -/
theorem expand_year_reversed_range_spec :
    ∀ (cs : String) (y1 y2 : Nat), matchRange (pyStrip cs.data) = some (y1, y2) →
      y2 < y1 → _expand_year cs = [] := by
  intro cs y1 y2 hm hlt
  have hz : y2 + 1 - y1 = 0 := by omega
  simp [_expand_year, hm, hz]

/-- C9, witness: the reversed range `"2016-2015"` is silently dropped. -/
theorem expand_year_reversed_range_spec_witness :
    matchRange (pyStrip ("2016-2015".data)) = some (2016, 2015) ∧
      _expand_year "2016-2015" = [] :=
  ⟨by decide, expand_year_reversed_range_spec "2016-2015" 2016 2015 (by decide) (by decide)⟩

/-! ## Claim C4 -/

/-- C4: `classify_page` returns the first applicable of: product on exact
membership in the known-product set; category on exact membership in the
known-category set; product on a product-pattern match of the URL path;
category on a category-pattern match; otherwise other.  In particular a
URL in the known-product set classifies as product even when its path
matches a category pattern. -/
theorem classify_page_spec :
    (∀ url path kp kc, url ∈ kp →
      classify_page url path kp kc = "product")
    ∧ (∀ url path kp kc, url ∉ kp → url ∈ kc →
      classify_page url path kp kc = "category")
    ∧ (∀ url path kp kc, url ∉ kp → url ∉ kc →
      PRODUCT_PATTERNS.any (fun p => patternSearch p path) = true →
      classify_page url path kp kc = "product")
    ∧ (∀ url path kp kc, url ∉ kp → url ∉ kc →
      PRODUCT_PATTERNS.any (fun p => patternSearch p path) = false →
      CATEGORY_PATTERNS.any (fun p => patternSearch p path) = true →
      classify_page url path kp kc = "category")
    ∧ (∀ url path kp kc, url ∉ kp → url ∉ kc →
      PRODUCT_PATTERNS.any (fun p => patternSearch p path) = false →
      CATEGORY_PATTERNS.any (fun p => patternSearch p path) = false →
      classify_page url path kp kc = "other")
    ∧ (∀ url path kp kc, url ∈ kp →
      CATEGORY_PATTERNS.any (fun p => patternSearch p path) = true →
      classify_page url path kp kc = "product") := by
  refine ⟨?_, ?_, ?_, ?_, ?_, ?_⟩ <;> intro url path kp kc
  · intro h1; simp [classify_page, h1]
  · intro h1 h2; simp [classify_page, h1, h2]
  · intro h1 h2 h3; simp [classify_page, h1, h2, h3]
  · intro h1 h2 h3 h4; simp [classify_page, h1, h2, h3, h4]
  · intro h1 h2 h3 h4; simp [classify_page, h1, h2, h3, h4]
  · intro h1 _; simp [classify_page, h1]

/-- C4, witness: a URL in the known-product set whose path matches the
category pattern `/c/` still classifies as product. -/
theorem classify_page_spec_witness :
    "https://x.example/a" ∈ ["https://x.example/a"] ∧
      CATEGORY_PATTERNS.any (fun p => patternSearch p "/c/a") = true ∧
      classify_page "https://x.example/a" "/c/a" ["https://x.example/a"] [] = "product" :=
  ⟨by decide, by decide,
    classify_page_spec.2.2.2.2.2 "https://x.example/a" "/c/a"
      ["https://x.example/a"] [] (by decide) (by decide)⟩

/-! ## Claim C3 -/

/-- C3: each extracted field takes the first non-empty value of its own
fallback chain, independently per field.  The price, images, currency and
condition always come from the structured data; the brand comes from the
structured data when non-empty and otherwise from the `Brand` item
specification row; the title comes from the structured data when
non-empty and otherwise from the trimmed primary heading when one exists.
In particular a structured brand `""` with a labeled row `Brand: Acme`
yields `"Acme"`, and a structured brand `"Acme"` beats a conflicting
labeled row `Brand: Other`. -/
theorem extract_product_fallback_spec :
    (∀ sd h1 rows, (jsExtractProduct sd h1 rows).price = sd.price
      ∧ (jsExtractProduct sd h1 rows).images = sd.images
      ∧ (jsExtractProduct sd h1 rows).currency = sd.currency
      ∧ (jsExtractProduct sd h1 rows).condition = sd.condition)
    ∧ (∀ sd h1 rows, sd.brand ≠ "" → (jsExtractProduct sd h1 rows).brand = sd.brand)
    ∧ (∀ sd h1 rows, sd.brand = "" →
      (jsExtractProduct sd h1 rows).brand = dictGet (buildSpecs rows) "Brand")
    ∧ (∀ sd h1 rows, sd.title ≠ "" → (jsExtractProduct sd h1 rows).title = sd.title)
    ∧ (∀ sd rows t, sd.title = "" → (jsExtractProduct sd (some t) rows).title = jsTrim t)
    ∧ (∀ sd rows, sd.title = "" → (jsExtractProduct sd none rows).title = "")
    ∧ (∀ sd h1, sd.brand = "" → (jsExtractProduct sd h1 [("Brand", "Acme")]).brand = "Acme")
    ∧ (∀ sd h1, sd.brand = "Acme" →
      (jsExtractProduct sd h1 [("Brand", "Other")]).brand = "Acme") := by
  refine ⟨?_, ?_, ?_, ?_, ?_, ?_, ?_, ?_⟩
  · intro sd h1 rows; exact ⟨rfl, rfl, rfl, rfl⟩
  · intro sd h1 rows h; simp [jsExtractProduct, h]
  · intro sd h1 rows h; simp [jsExtractProduct, h]
  · intro sd h1 rows h; simp [jsExtractProduct, h]
  · intro sd rows t h; simp [jsExtractProduct, h]
  · intro sd rows h; simp [jsExtractProduct, h]
  · intro sd h1 h; simp [jsExtractProduct, h]; decide
  · intro sd h1 h; simp [jsExtractProduct, h]

/-- C3, witness: both concrete brand scenarios of the claim, applied to a
page with empty (resp. conflicting) structured brand data. -/
theorem extract_product_fallback_spec_witness :
    (jsExtractProduct { brand := "" } none [("Brand", "Acme")]).brand = "Acme" ∧
      (jsExtractProduct { brand := "Acme" } none [("Brand", "Other")]).brand = "Acme" :=
  ⟨extract_product_fallback_spec.2.2.2.2.2.2.1 { brand := "" } none rfl,
    extract_product_fallback_spec.2.2.2.2.2.2.2 { brand := "Acme" } none rfl⟩

/-! ## Claim C6 -/

/-- C6: for every page environment, `scrape_product` returns exactly one
of a detail record or an error record (the embedding is a total function
into a sum, modelling that the guarded fetch is the only external call
that raises); the error record always carries the item id and URL.  A
fetch exception becomes an error record with its message.  When the
fetched page's title contains the blocking marker, the title is re-read
once after a wait: still blocked means an error record, no longer blocked
means normal extraction — exactly one retry, no further polling.  An
unblocked title extracts immediately. -/
theorem scrape_product_spec :
    (∀ env id s f,
      (∃ p, scrape_product env id s f = .ok p ∧ p.item_id = id ∧
        p.url = EBAY_BASE ++ "/itm/" ++ id ∧ p.error = "") ∨
      (∃ e, scrape_product env id s f = .err e ∧ e.item_id = id ∧
        e.url = EBAY_BASE ++ "/itm/" ++ id))
    ∧ (∀ env id s f msg, env.fetch = some msg →
      scrape_product env id s f = .err ⟨msg, id, EBAY_BASE ++ "/itm/" ++ id⟩)
    ∧ (∀ env id s f, env.fetch = none →
      containsSub "security".data (lowerStr env.title1).data = true →
      containsSub "security".data (lowerStr env.title2).data = true →
      scrape_product env id s f =
        .err ⟨"Security/CAPTCHA page", id, EBAY_BASE ++ "/itm/" ++ id⟩)
    ∧ (∀ env id s f, env.fetch = none →
      containsSub "security".data (lowerStr env.title1).data = true →
      containsSub "security".data (lowerStr env.title2).data = false →
      scrape_product env id s f =
        .ok (buildProduct env id (EBAY_BASE ++ "/itm/" ++ id) s))
    ∧ (∀ env id s f, env.fetch = none →
      containsSub "security".data (lowerStr env.title1).data = false →
      scrape_product env id s f =
        .ok (buildProduct env id (EBAY_BASE ++ "/itm/" ++ id) s)) := by
  refine ⟨?_, ?_, ?_, ?_, ?_⟩
  · intro env id s f
    cases hf : env.fetch with
    | some msg =>
      exact Or.inr ⟨⟨msg, id, EBAY_BASE ++ "/itm/" ++ id⟩, by simp [scrape_product, hf], rfl, rfl⟩
    | none =>
      by_cases h1 : containsSub "security".data (lowerStr env.title1).data = true
      · by_cases h2 : containsSub "security".data (lowerStr env.title2).data = true
        · exact Or.inr ⟨⟨"Security/CAPTCHA page", id, EBAY_BASE ++ "/itm/" ++ id⟩,
            by simp [scrape_product, hf, h1, h2], rfl, rfl⟩
        · exact Or.inl ⟨buildProduct env id (EBAY_BASE ++ "/itm/" ++ id) s,
            by simp [scrape_product, hf, h1, h2], rfl, rfl, rfl⟩
      · exact Or.inl ⟨buildProduct env id (EBAY_BASE ++ "/itm/" ++ id) s,
          by simp [scrape_product, hf, h1], rfl, rfl, rfl⟩
  · intro env id s f msg hf; simp [scrape_product, hf]
  · intro env id s f hf h1 h2; simp [scrape_product, hf, h1, h2]
  · intro env id s f hf h1 h2; simp [scrape_product, hf, h1, h2]
  · intro env id s f hf h1; simp [scrape_product, hf, h1]

/-- C6, witness: a page blocked at both title checks yields the error
record for that item. -/
theorem scrape_product_spec_witness :
    scrape_product { title1 := "Security Measure", title2 := "Security Measure" }
        "99" true false =
      .err ⟨"Security/CAPTCHA page", "99", "https://www.ebay.co.uk/itm/99"⟩ := by
  have h := scrape_product_spec.2.2.1
    { title1 := "Security Measure", title2 := "Security Measure" }
    "99" true false rfl (by decide) (by decide)
  exact h.trans (by decide)

theorem contRowsFrom_length (handle title : String) :
    ∀ (n : Nat) (l : List String), (contRowsFrom handle title n l).length = l.length := by
  intro n l
  induction l generalizing n with
  | nil => rfl
  | cons x t ih => simp [contRowsFrom, ih]

theorem contRowsFrom_getElem? (handle title : String) :
    ∀ (n i : Nat) (l : List String),
      (contRowsFrom handle title n l)[i]? =
        l[i]?.map (fun img => contRowDict handle title (n + i) img) := by
  intro n i l
  induction l generalizing n i with
  | nil => simp [contRowsFrom]
  | cons x t ih =>
    cases i with
    | zero => simp [contRowsFrom]
    | succ j =>
      simp only [contRowsFrom, List.getElem?_cons_succ, ih (n + 1) j]
      have : n + 1 + j = n + (j + 1) := by omega
      rw [this]

theorem dictGet_contRowDict_other (handle title : String) (idx : Nat) (img col : String)
    (h1 : col ≠ "Handle") (h2 : col ≠ "Image Src") (h3 : col ≠ "Image Position")
    (h4 : col ≠ "Image Alt Text") :
    dictGet (contRowDict handle title idx img) col = "" := by
  have e1 : ("Handle" == col) = false := by simpa using Ne.symm h1
  have e2 : ("Image Src" == col) = false := by simpa using Ne.symm h2
  have e3 : ("Image Position" == col) = false := by simpa using Ne.symm h3
  have e4 : ("Image Alt Text" == col) = false := by simpa using Ne.symm h4
  simp [dictGet, contRowDict, List.find?, e1, e2, e3, e4]

theorem productRows_length (p : Product) :
    (productRows p).length = if p.error ≠ "" then 0 else max 1 p.images.length := by
  by_cases h : p.error = ""
  · simp [productRows, h, contRowsFrom_length]
    omega
  · simp [productRows, h]

theorem generate_csv_length :
    ∀ products : List Product,
      (generate_shopify_csv products).length =
        (products.map (fun p => if p.error ≠ "" then 0 else max 1 p.images.length)).sum := by
  intro products
  induction products with
  | nil => rfl
  | cons p t ih =>
    simp only [generate_shopify_csv, List.map_cons, List.flatten_cons, List.length_append,
      List.sum_cons] at *
    rw [ih, productRows_length]

/-! ## Claim C5 -/

/-- C5, counterexample.  The claim states that a record with zero images
produces one row with the image-slot columns empty, while continuation
rows carry only the handle and the image slot — so the image-slot columns
include the alt-text column.  On a titled record with no images the
single emitted row's `Image Alt Text` column holds the title, not the
empty string, because the source writes the title there unconditionally. -/
theorem shopify_rows_claim_counterexample :
    sampleNoImageProduct.error = "" ∧ sampleNoImageProduct.images = [] ∧
      sampleNoImageProduct.title ≠ "" ∧
      productRows sampleNoImageProduct = [firstRowDict sampleNoImageProduct] ∧
      dictGet (firstRowDict sampleNoImageProduct) "Image Alt Text" = "Lamp" ∧
      ("Lamp" : String) ≠ "" :=
  ⟨rfl, rfl, by decide, by decide, by decide, by decide⟩

/-- C5, amended.  A non-error record with M images (M ≥ 1) emits exactly
M rows: row 1 carries every scalar field plus image slot 1 (source,
position `"1"`, alt text), and rows 2..M carry only the record's handle
and image slot k — source URL k, position `k`, and the alt text repeating
the record's title — with every other column blank.  A record with zero
images emits exactly one row whose image source and position columns are
empty while its alt-text column still repeats the title. -/
theorem shopify_rows_amended_spec :
    (∀ p : Product, p.error = "" → (productRows p).length = max 1 p.images.length)
    ∧ (∀ p : Product, p.error = "" → (productRows p)[0]? = some (firstRowDict p))
    ∧ (∀ p : Product,
        dictGet (firstRowDict p) "Handle" = handleOf p ∧
        dictGet (firstRowDict p) "Title" = p.title ∧
        dictGet (firstRowDict p) "Body (HTML)" = p.description_html ∧
        dictGet (firstRowDict p) "Vendor" = "Argo City Ltd" ∧
        dictGet (firstRowDict p) "Variant SKU" = p.item_id ∧
        dictGet (firstRowDict p) "Variant Price" = p.price ∧
        dictGet (firstRowDict p) "Image Src" = p.images.headD "" ∧
        dictGet (firstRowDict p) "Image Position" = (if p.images.isEmpty then "" else "1") ∧
        dictGet (firstRowDict p) "Image Alt Text" = p.title)
    ∧ (∀ (p : Product) (k : Nat) (img : String), p.error = "" → 1 ≤ k →
        p.images[k]? = some img →
        (productRows p)[k]? =
          some (contRowDict (handleOf p) p.title (k + 1) img))
    ∧ (∀ (handle title : String) (idx : Nat) (img : String),
        dictGet (contRowDict handle title idx img) "Handle" = handle ∧
        dictGet (contRowDict handle title idx img) "Image Src" = img ∧
        dictGet (contRowDict handle title idx img) "Image Position" = Nat.repr idx ∧
        dictGet (contRowDict handle title idx img) "Image Alt Text" = title)
    ∧ (∀ (handle title : String) (idx : Nat) (img col : String),
        col ∈ FIELDNAMES →
        col ≠ "Handle" → col ≠ "Image Src" → col ≠ "Image Position" →
        col ≠ "Image Alt Text" →
        dictGet (contRowDict handle title idx img) col = "")
    ∧ (∀ p : Product, p.error = "" → p.images = [] →
        productRows p = [firstRowDict p]) := by
  refine ⟨?_, ?_, ?_, ?_, ?_, ?_, ?_⟩
  · intro p h
    have := productRows_length p
    simp [h] at this
    omega
  · intro p h; simp [productRows, h]
  · intro p
    refine ⟨rfl, rfl, rfl, rfl, rfl, rfl, rfl, rfl, rfl⟩
  · intro p k img h hk1 himg
    obtain ⟨j, rfl⟩ : ∃ j, k = j + 1 := ⟨k - 1, by omega⟩
    simp only [productRows, h]
    rw [if_neg (by simp : ¬(("" : String) ≠ ""))]
    rw [List.getElem?_cons_succ, contRowsFrom_getElem?]
    rw [List.getElem?_drop]
    have h1j : 1 + j = j + 1 := by omega
    rw [h1j, himg]
    have h2j : 2 + j = j + 1 + 1 := by omega
    simp [h2j]
  · intro handle title idx img
    refine ⟨rfl, rfl, rfl, rfl⟩
  · intro handle title idx img col _ h1 h2 h3 h4
    exact dictGet_contRowDict_other handle title idx img col h1 h2 h3 h4
  · intro p h himg
    simp [productRows, h, himg, contRowsFrom]

/-- C5, witness: a record with three images emits exactly three rows. -/
theorem shopify_rows_amended_spec_witness :
    (productRows { sampleNoImageProduct with images := ["u1", "u2", "u3"] }).length = 3 := by
  have h := shopify_rows_amended_spec.1
    { sampleNoImageProduct with images := ["u1", "u2", "u3"] } rfl
  exact h.trans (by decide)

/-! ## Claim C10 -/

/-- C10: an entry with a non-empty error key emits zero CSV rows, and the
total number of data rows equals the sum over non-error entries of
`max 1 (number of images)`. -/
theorem generate_csv_error_rows_spec :
    (∀ p : Product, p.error ≠ "" → productRows p = [])
    ∧ (∀ products : List Product,
        (generate_shopify_csv products).length =
          (products.map (fun p => if p.error ≠ "" then 0 else max 1 p.images.length)).sum) := by
  constructor
  · intro p h; simp [productRows, h]
  · exact generate_csv_length

/-- C10, witness: a concrete error record contributes no rows. -/
theorem generate_csv_error_rows_spec_witness :
    productRows sampleErrorProduct = [] :=
  generate_csv_error_rows_spec.1 sampleErrorProduct (by decide)

theorem unionOf_nil : unionOf [] = ∅ := rfl

theorem unionOf_cons (p : List String) (l : List (List String)) :
    unionOf (p :: l) = p.toFinset ∪ unionOf l := rfl

theorem collectWalk_spec :
    ∀ (pages : List (List String)) (acc s : Finset String) (n : Nat),
      collectWalk pages acc = some (s, n) →
      1 ≤ n ∧ n ≤ pages.length ∧
      s = acc ∪ unionOf (pages.take n) ∧
      stopPage (pages.getD (n - 1) []) (acc ∪ unionOf (pages.take (n - 1))) ∧
      (∀ j, j + 1 < n → ¬ stopPage (pages.getD j []) (acc ∪ unionOf (pages.take j))) := by
  intro pages
  induction pages with
  | nil => intro acc s n h; simp [collectWalk] at h
  | cons p rest ih =>
    intro acc s n h
    by_cases hp : p = []
    · rw [collectWalk, if_pos hp] at h
      obtain ⟨rfl, rfl⟩ : acc = s ∧ 1 = n := by
        constructor <;> [skip; skip] <;> injection h with h' <;> cases h' <;> rfl
      refine ⟨le_refl 1, by simp, ?_, ?_, ?_⟩
      · simp [hp, unionOf_cons, unionOf_nil]
      · simpa [hp, unionOf_nil, stopPage] using Or.inl rfl
      · intro j hj; omega
    · rw [collectWalk, if_neg hp] at h
      by_cases hd : p.toFinset \ acc = ∅
      · rw [if_pos hd] at h
        obtain ⟨rfl, rfl⟩ : acc ∪ p.toFinset = s ∧ 1 = n := by
          constructor <;> injection h with h' <;> cases h' <;> rfl
        refine ⟨le_refl 1, by simp, ?_, ?_, ?_⟩
        · simp [unionOf_cons, unionOf_nil]
        · refine Or.inr ?_
          simpa [unionOf_nil] using Finset.sdiff_eq_empty_iff_subset.mp hd
        · intro j hj; omega
      · rw [if_neg hd] at h
        cases hw : collectWalk rest (acc ∪ p.toFinset) with
        | none => rw [hw] at h; simp at h
        | some v =>
          obtain ⟨s', m⟩ := v
          rw [hw] at h
          simp only [Option.some.injEq, Prod.mk.injEq] at h
          obtain ⟨rfl, rfl⟩ := h
          obtain ⟨hm1, hm2, hs, hstop, hnostop⟩ := ih (acc ∪ p.toFinset) s' m hw
          obtain ⟨i, rfl⟩ : ∃ i, m = i + 1 := ⟨m - 1, by omega⟩
          refine ⟨by omega, by simp; omega, ?_, ?_, ?_⟩
          · rw [List.take_succ_cons, unionOf_cons, ← Finset.union_assoc]
            exact hs
          · have : i + 1 + 1 - 1 = i + 1 := by omega
            rw [this, List.getD_cons_succ, List.take_succ_cons, unionOf_cons,
              ← Finset.union_assoc]
            simpa using hstop
          · intro j hj
            cases j with
            | zero =>
              simp only [List.getD_cons_zero, List.take_zero, unionOf_nil,
                Finset.union_empty, stopPage]
              rintro (h0 | h0)
              · exact hp h0
              · exact hd (Finset.sdiff_eq_empty_iff_subset.mpr h0)
            | succ i' =>
              rw [List.getD_cons_succ, List.take_succ_cons, unionOf_cons,
                ← Finset.union_assoc]
              exact hnostop i' (by omega)

/-! ## Claim C2 -/

/-- C2: whenever the listing walk terminates within the modelled pages,
it has fetched at least one page, the page it stopped at is the first one
that yielded zero identifiers or no identifiers new to the running union,
and the result is the duplicate-free sorted union of the identifiers of
all fetched pages.  In particular pages yielding A,B then B,C then
nothing make the walk stop after page 3 with the sorted result A, B, C. -/
theorem collect_product_urls_spec :
    (∀ (pages : List (List String)) (out : List String) (n : Nat),
      collect_product_urls pages = some (out, n) →
      1 ≤ n ∧ n ≤ pages.length ∧
      List.Sorted (· ≤ ·) out ∧ out.Nodup ∧
      (∀ x, x ∈ out ↔ x ∈ unionOf (pages.take n)) ∧
      stopPage (pages.getD (n - 1) []) (unionOf (pages.take (n - 1))) ∧
      (∀ j, j + 1 < n → ¬ stopPage (pages.getD j []) (unionOf (pages.take j))))
    ∧ (∀ A B C : String, A < B → B < C →
      collect_product_urls [[A, B], [B, C], []] = some ([A, B, C], 3)) := by
  constructor
  · intro pages out n h
    unfold collect_product_urls at h
    cases hw : collectWalk pages ∅ with
    | none => rw [hw] at h; simp at h
    | some v =>
      obtain ⟨s, m⟩ := v
      rw [hw] at h
      simp only [Option.some.injEq, Prod.mk.injEq] at h
      obtain ⟨rfl, rfl⟩ := h
      obtain ⟨h1, h2, hs, hstop, hnostop⟩ := collectWalk_spec pages ∅ s m hw
      refine ⟨h1, h2, Finset.sort_sorted _ _, Finset.sort_nodup _ _, ?_, ?_, ?_⟩
      · intro x
        rw [Finset.mem_sort, hs]
        simp
      · simpa using hstop
      · intro j hj
        simpa using hnostop j hj
  · intro A B C hab hbc
    have hac : A < C := lt_trans hab hbc
    have hne1 : (([A, B] : List String).toFinset \ ∅) ≠ ∅ := by
      refine Finset.nonempty_iff_ne_empty.mp ⟨A, ?_⟩
      simp
    have hne2 : (([B, C] : List String).toFinset \ ([A, B] : List String).toFinset) ≠ ∅ := by
      refine Finset.nonempty_iff_ne_empty.mp ⟨C, ?_⟩
      simp [hac.ne', hbc.ne']
    have hw : collectWalk [[A, B], [B, C], []] ∅ =
        some (([A, B] : List String).toFinset ∪ ([B, C] : List String).toFinset, 3) := by
      rw [collectWalk, if_neg (by simp), if_neg (by simpa using hne1)]
      rw [collectWalk, if_neg (by simp)]
      rw [if_neg (by simpa using hne2)]
      rw [collectWalk, if_pos rfl]
      simp
    have hset : ([A, B] : List String).toFinset ∪ ([B, C] : List String).toFinset =
        insert A (insert B ({C} : Finset String)) := by
      ext x
      simp
    have h1BC : ∀ b ∈ ({C} : Finset String), B ≤ b := by
      intro b hb
      simp only [Finset.mem_singleton] at hb
      subst hb
      exact le_of_lt hbc
    have h2BC : B ∉ ({C} : Finset String) := by simp [hbc.ne]
    have hsBC : Finset.sort (· ≤ ·) (insert B ({C} : Finset String)) = [B, C] := by
      rw [Finset.sort_insert _ h1BC h2BC, Finset.sort_singleton]
    have h1A : ∀ b ∈ insert B ({C} : Finset String), A ≤ b := by
      intro b hb
      simp only [Finset.mem_insert, Finset.mem_singleton] at hb
      rcases hb with rfl | rfl
      · exact le_of_lt hab
      · exact le_of_lt hac
    have h2A : A ∉ insert B ({C} : Finset String) := by simp [hab.ne, hac.ne]
    have hsort : Finset.sort (· ≤ ·) (insert A (insert B ({C} : Finset String))) =
        [A, B, C] := by
      rw [Finset.sort_insert _ h1A h2A, hsBC]
    unfold collect_product_urls
    rw [hw]
    show some (Finset.sort (· ≤ ·) (([A, B] : List String).toFinset ∪ ([B, C] : List String).toFinset), 3) = some ([A, B, C], 3)
    rw [hset, hsort]


/-- C2, witness: the claim's three-page scenario at concrete
identifiers. -/
theorem collect_product_urls_spec_witness :
    collect_product_urls [["a", "b"], ["b", "c"], []] = some (["a", "b", "c"], 3) :=
  collect_product_urls_spec.2 "a" "b" "c"
    (String.lt_iff_toList_lt.mpr (by decide)) (String.lt_iff_toList_lt.mpr (by decide))

theorem runItems_checkpoints_length (outcome : String → ScrapeResult)
    (scraped0 : List String) :
    ∀ (ids : List String) (i : Nat) (st : RunState),
      (runItems outcome scraped0 i ids st).checkpoints.length =
        st.checkpoints.length + checkpointCount scraped0 i ids := by
  intro ids
  induction ids with
  | nil => intro i st; simp [runItems, checkpointCount]
  | cons id rest ih =>
    intro i st
    rw [runItems, ih, checkpointCount]
    by_cases hc : scraped0.contains id = true
    · have hm : id ∈ scraped0 := by simpa using hc
      simp [stepItem, hm, hc]
    · have hm : id ∉ scraped0 := by simpa using hc
      by_cases h5 : (i + 1) % 5 = 0
      · cases houtcome : outcome id <;> simp [stepItem, hm, hc, h5, houtcome] <;> omega
      · cases houtcome : outcome id <;> simp [stepItem, hm, hc, h5, houtcome]

theorem checkpointCount_nil_scraped :
    ∀ (ids : List String) (i : Nat),
      checkpointCount [] i ids = (i + ids.length) / 5 - i / 5 := by
  intro ids
  induction ids with
  | nil => intro i; simp [checkpointCount]
  | cons id rest ih =>
    intro i
    rw [checkpointCount, ih (i + 1)]
    have hcontains : (([] : List String).contains id) = false := rfl
    by_cases h5 : (i + 1) % 5 = 0
    · rw [if_pos (by simp [hcontains, h5])]
      simp only [List.length_cons]
      omega
    · rw [if_neg (by simp [h5])]
      simp only [List.length_cons]
      omega

theorem runItems_products (outcome : String → ScrapeResult) (scraped0 : List String) :
    ∀ (ids : List String) (i : Nat) (st : RunState),
      (runItems outcome scraped0 i ids st).products =
        st.products ++
          (ids.filter (fun id => !(scraped0.contains id))).filterMap (prodOf outcome) := by
  intro ids
  induction ids with
  | nil => intro i st; simp [runItems]
  | cons id rest ih =>
    intro i st
    rw [runItems, ih]
    by_cases hc : scraped0.contains id = true
    · have hm : id ∈ scraped0 := by simpa using hc
      simp [stepItem, hm, hc, List.filter_cons]
    · have hcf : scraped0.contains id = false := by simpa using hc
      have hm2 : id ∉ scraped0 := by simpa using hcf
      by_cases h5 : (i + 1) % 5 = 0 <;> cases houtcome : outcome id <;>
        simp [stepItem, hc, hcf, hm2, h5, houtcome, prodOf, List.filter_cons]

theorem runItems_errors (outcome : String → ScrapeResult) (scraped0 : List String) :
    ∀ (ids : List String) (i : Nat) (st : RunState),
      (runItems outcome scraped0 i ids st).errors =
        st.errors ++
          (ids.filter (fun id => !(scraped0.contains id))).filterMap (errOf outcome) := by
  intro ids
  induction ids with
  | nil => intro i st; simp [runItems]
  | cons id rest ih =>
    intro i st
    rw [runItems, ih]
    by_cases hc : scraped0.contains id = true
    · have hm : id ∈ scraped0 := by simpa using hc
      simp [stepItem, hm, hc, List.filter_cons]
    · have hcf : scraped0.contains id = false := by simpa using hc
      have hm2 : id ∉ scraped0 := by simpa using hcf
      by_cases h5 : (i + 1) % 5 = 0 <;> cases houtcome : outcome id <;>
        simp [stepItem, hc, hcf, hm2, h5, houtcome, errOf, List.filter_cons]

theorem runItems_fetched (outcome : String → ScrapeResult) (scraped0 : List String) :
    ∀ (ids : List String) (i : Nat) (st : RunState),
      (runItems outcome scraped0 i ids st).fetched =
        st.fetched ++ ids.filter (fun id => !(scraped0.contains id)) := by
  intro ids
  induction ids with
  | nil => intro i st; simp [runItems]
  | cons id rest ih =>
    intro i st
    rw [runItems, ih]
    by_cases hc : scraped0.contains id = true
    · have hm : id ∈ scraped0 := by simpa using hc
      simp [stepItem, hm, hc, List.filter_cons]
    · have hcf : scraped0.contains id = false := by simpa using hc
      have hm2 : id ∉ scraped0 := by simpa using hcf
      by_cases h5 : (i + 1) % 5 = 0 <;> cases houtcome : outcome id <;>
        simp [stepItem, hc, hcf, hm2, h5, houtcome, List.filter_cons]

theorem resultId_outcomeOf (envOf : String → PageEnv) (s f : Bool) (id : String) :
    resultId (outcomeOf envOf s f id) = id := by
  unfold outcomeOf scrape_product
  cases (envOf id).fetch with
  | some msg => rfl
  | none =>
    by_cases h1 : containsSub "security".data (lowerStr (envOf id).title1).data = true
    · by_cases h2 : containsSub "security".data (lowerStr (envOf id).title2).data = true
      · simp [h1, h2, resultId]
      · simp [h1, h2, resultId, buildProduct]
    · simp [h1, resultId, buildProduct]

theorem mem_loadScraped (outcome : String → ScrapeResult)
    (hout : ∀ id, resultId (outcome id) = id) (l : List String) (x : String) :
    x ∈ loadScraped (l.filterMap (prodOf outcome)) (l.filterMap (errOf outcome)) ↔
      x ∈ l := by
  unfold loadScraped
  simp only [List.mem_append, List.mem_map, List.mem_filterMap]
  constructor
  · rintro (⟨p, ⟨id, hid, hp⟩, rfl⟩ | ⟨e, ⟨id, hid, he⟩, rfl⟩)
    · have h := hout id
      cases houtcome : outcome id with
      | ok q =>
        rw [houtcome] at h
        simp only [prodOf, houtcome, Option.some.injEq] at hp
        subst hp
        simp only [resultId] at h
        rwa [h]
      | err e =>
        simp [prodOf, houtcome] at hp
    · have h := hout id
      cases houtcome : outcome id with
      | ok q =>
        simp [errOf, houtcome] at he
      | err e' =>
        rw [houtcome] at h
        simp only [errOf, houtcome, Option.some.injEq] at he
        subst he
        simp only [resultId] at h
        rwa [h]
  · intro hx
    cases houtcome : outcome x with
    | ok p =>
      refine Or.inl ⟨p, ⟨x, hx, by simp [prodOf, houtcome]⟩, ?_⟩
      have h := hout x
      rw [houtcome] at h
      simpa [resultId] using h
    | err e =>
      refine Or.inr ⟨e, ⟨x, hx, by simp [errOf, houtcome]⟩, ?_⟩
      have h := hout x
      rw [houtcome] at h
      simpa [resultId] using h

theorem filter_not_mem_split (ids scr : List String) (n : Nat)
    (hnd : ids.Nodup)
    (hscr : ∀ x, x ∈ scr ↔ x ∈ ids.take n) :
    ids.filter (fun id => !(scr.contains id)) = ids.drop n := by
  conv_lhs => rw [← List.take_append_drop n ids]
  rw [List.filter_append]
  have hdisj : (ids.take n).Disjoint (ids.drop n) := by
    have := hnd
    rw [← List.take_append_drop n ids, List.nodup_append] at this
    exact this.2.2
  have h1 : (ids.take n).filter (fun id => !(scr.contains id)) = [] := by
    rw [List.filter_eq_nil_iff]
    intro a ha
    simp [(hscr a).mpr ha]
  have h2 : (ids.drop n).filter (fun id => !(scr.contains id)) = ids.drop n := by
    rw [List.filter_eq_self]
    intro a ha
    have hnotin : a ∉ scr := fun hmem => hdisj ((hscr a).mp hmem) ha
    simp [hnotin]
  rw [h1, h2, List.nil_append]

/-! ## Claim C7 -/

/-- C7, counterexample.  The claim states the progress file is written
after every fixed batch of 5 newly processed items.  In a resumed run
over six items whose fifth item is already recorded, five items are newly
processed, yet no mid-run snapshot is written at all — the loop keys the
write to the raw 1-based loop position, and the skip of position five
jumps over the write — so the run performs only the single unconditional
end-of-run write where the claim requires a batch write as well. -/
theorem checkpoint_claim_counterexample :
    (runLoop sampleOutcome ["e"] sampleIds initState).fetched.length = 5 ∧
      (runLoop sampleOutcome ["e"] sampleIds initState).checkpoints.length = 1 :=
  ⟨by decide, by decide⟩

/-- C7, amended.  The progress snapshot is written exactly after those
loop iterations whose 1-based position in the item list is a multiple of
five and whose item was not skipped as already scraped, plus once
unconditionally at run end; in a fresh run that skips nothing this is one
mid-run write per five processed items, `N / 5 + 1` writes in total. -/
theorem checkpoint_schedule_spec :
    (∀ (outcome : String → ScrapeResult) (scraped0 ids : List String) (st0 : RunState),
      (runLoop outcome scraped0 ids st0).checkpoints.length =
        st0.checkpoints.length + checkpointCount scraped0 0 ids + 1)
    ∧ (∀ (outcome : String → ScrapeResult) (ids : List String),
      (fullRun outcome ids).checkpoints.length = ids.length / 5 + 1) := by
  constructor
  · intro outcome scraped0 ids st0
    simp [runLoop, runItems_checkpoints_length]
  · intro outcome ids
    simp [fullRun, runLoop, runItems_checkpoints_length, checkpointCount_nil_scraped,
      initState]

theorem runLoop_products (outcome : String → ScrapeResult) (scr ids : List String)
    (st0 : RunState) :
    (runLoop outcome scr ids st0).products =
      st0.products ++ (ids.filter (fun id => !(scr.contains id))).filterMap (prodOf outcome) := by
  simp [runLoop, runItems_products]

theorem runLoop_errors (outcome : String → ScrapeResult) (scr ids : List String)
    (st0 : RunState) :
    (runLoop outcome scr ids st0).errors =
      st0.errors ++ (ids.filter (fun id => !(scr.contains id))).filterMap (errOf outcome) := by
  simp [runLoop, runItems_errors]

theorem runLoop_fetched (outcome : String → ScrapeResult) (scr ids : List String)
    (st0 : RunState) :
    (runLoop outcome scr ids st0).fetched =
      st0.fetched ++ ids.filter (fun id => !(scr.contains id)) := by
  simp [runLoop, runItems_fetched]

/-! ## Claim C8 -/

/-- C8: over a duplicate-free identifier list (identifier lists are sets
in this pipeline: the collector emits `sorted(set(...))`), stopping a run
after its first `n` items and resuming from the saved progress yields
exactly the products and errors of the uninterrupted run, and the resumed
run never fetches an identifier already recorded as completed or errored
in the loaded progress. -/
theorem pipeline_resume_spec :
    ∀ (envOf : String → PageEnv) (s f : Bool) (ids : List String) (n : Nat),
      ids.Nodup →
      (resumedRun (outcomeOf envOf s f) ids n).products =
        (fullRun (outcomeOf envOf s f) ids).products ∧
      (resumedRun (outcomeOf envOf s f) ids n).errors =
        (fullRun (outcomeOf envOf s f) ids).errors ∧
      (∀ x ∈ (resumedRun (outcomeOf envOf s f) ids n).fetched,
        x ∉ loadScraped
          (runLoop (outcomeOf envOf s f) [] (ids.take n) initState).products
          (runLoop (outcomeOf envOf s f) [] (ids.take n) initState).errors) := by
  intro envOf s f ids n hnd
  have hout : ∀ id, resultId (outcomeOf envOf s f id) = id :=
    fun id => resultId_outcomeOf envOf s f id
  have hfilter_nil : ∀ l : List String,
      l.filter (fun id => !(([] : List String).contains id)) = l := by
    intro l; rw [List.filter_eq_self]; intro a _; rfl
  have hr1p : (runLoop (outcomeOf envOf s f) [] (ids.take n) initState).products =
      (ids.take n).filterMap (prodOf (outcomeOf envOf s f)) := by
    rw [runLoop_products, hfilter_nil]; rfl
  have hr1e : (runLoop (outcomeOf envOf s f) [] (ids.take n) initState).errors =
      (ids.take n).filterMap (errOf (outcomeOf envOf s f)) := by
    rw [runLoop_errors, hfilter_nil]; rfl
  have hscr : ∀ x,
      x ∈ loadScraped (runLoop (outcomeOf envOf s f) [] (ids.take n) initState).products
            (runLoop (outcomeOf envOf s f) [] (ids.take n) initState).errors ↔
        x ∈ ids.take n := by
    intro x
    rw [hr1p, hr1e]
    exact mem_loadScraped (outcomeOf envOf s f) hout (ids.take n) x
  have hfs : ids.filter (fun id =>
      !((loadScraped (runLoop (outcomeOf envOf s f) [] (ids.take n) initState).products
          (runLoop (outcomeOf envOf s f) [] (ids.take n) initState).errors).contains id)) =
      ids.drop n :=
    filter_not_mem_split ids _ n hnd hscr
  have hdisj : (ids.take n).Disjoint (ids.drop n) := by
    have h := hnd
    rw [← List.take_append_drop n ids, List.nodup_append] at h
    exact h.2.2
  have hres : resumedRun (outcomeOf envOf s f) ids n =
      runLoop (outcomeOf envOf s f)
        (loadScraped (runLoop (outcomeOf envOf s f) [] (ids.take n) initState).products
          (runLoop (outcomeOf envOf s f) [] (ids.take n) initState).errors) ids
        { products := (runLoop (outcomeOf envOf s f) [] (ids.take n) initState).products,
          errors := (runLoop (outcomeOf envOf s f) [] (ids.take n) initState).errors } := rfl
  refine ⟨?_, ?_, ?_⟩
  · rw [hres, runLoop_products, hfs]
    show (runLoop (outcomeOf envOf s f) [] (ids.take n) initState).products ++ _ = _
    rw [hr1p, fullRun, runLoop_products, hfilter_nil,
      ← List.filterMap_append, List.take_append_drop]
    rfl
  · rw [hres, runLoop_errors, hfs]
    show (runLoop (outcomeOf envOf s f) [] (ids.take n) initState).errors ++ _ = _
    rw [hr1e, fullRun, runLoop_errors, hfilter_nil,
      ← List.filterMap_append, List.take_append_drop]
    rfl
  · intro x hx
    rw [hres, runLoop_fetched, hfs] at hx
    simp only [List.nil_append] at hx
    intro hmem
    exact hdisj ((hscr x).mp hmem) hx

/-- C8, witness: resuming the six-item sample run after three items
reproduces the uninterrupted run's records. -/
theorem pipeline_resume_spec_witness :
    (resumedRun sampleOutcome sampleIds 3).products =
      (fullRun sampleOutcome sampleIds).products :=
  (pipeline_resume_spec (fun _ => sampleEnv) true false sampleIds 3 (by decide)).1
